import Mathlib

/-!
Verification of the stable-diffusion FastAPI server (src/app.py) against its
natural-language specification.

The embedding below is a shallow model of `app.py`:

* configuration read from the environment at startup becomes the `Config`
  structure (MODEL_NAME, ENABLE_TXT2IMG, ENABLE_IMG2IMG, the selected device);
* the two global pipeline handles (`txt2img_pipeline`, `img2img_pipeline`) and
  the uploaded-image directory become the `ServerState` structure; a pipeline
  is modelled as a black-box function from its keyword arguments to either a
  list of images or an exception message (`Except String (List Image)`),
  matching the spec's treatment of the pretrained library as opaque;
* the nondeterministic externals used by `/v1/images/generations`
  (`time.time()`, `uuid4()`, PNG+base64 encoding) become the `Env` structure;
* each endpoint becomes a pure function returning its HTTP-level result
  together with the list of pipeline invocations it performed (its trace), and
  for the generations endpoint also the list of writes to `output_images/`.

Floating-point literals of the source (7.5, 0.5) are exact binary fractions
and are modelled as rationals.
-/

namespace SDServer

/-- An image produced by a pipeline or decoded from an upload; its pixel
content is opaque to the server, so it is modelled as an abstract token. -/
abbrev Image := Nat

/-- FastAPI's HTTPException: a status code plus a detail message that becomes
the JSON error body. -/
structure HTTPException where
  status_code : Nat
  detail : String
deriving DecidableEq, Repr

/-- The environment-derived configuration of app.py lines 46-59: model name,
the two capability flags and the torch device chosen at startup. -/
structure Config where
  MODEL_NAME : String
  ENABLE_TXT2IMG : Bool
  ENABLE_IMG2IMG : Bool
  device : String
deriving DecidableEq, Repr

/-- get_env_bool of app.py lines 42-43: the raw environment value (none when
the variable is unset) against a default. -/
def get_env_bool (raw : Option String) (default : Bool) : Bool :=
  (raw.getD (toString default)).toLower ∈ ["1", "true", "yes"]

/-- The keyword arguments of a text-to-image pipeline call. `/txt2img` passes
prompt, negative_prompt, num_inference_steps and guidance_scale (lines
205-210); `/v1/images/generations` passes prompt, num_inference_steps,
guidance_scale and num_images_per_prompt (lines 287-292). An argument a call
site omits is `none`. -/
structure Txt2ImgArgs where
  prompt : String
  negative_prompt : Option String
  num_inference_steps : Int
  guidance_scale : ℚ
  num_images_per_prompt : Option Int
deriving DecidableEq, Repr

/-- The keyword arguments of the image-to-image pipeline call at lines
257-264. The source image is carried as the byte content read from the
uploaded file. -/
structure Img2ImgArgs where
  prompt : String
  negative_prompt : String
  image : List Nat
  num_inference_steps : Int
  strength : ℚ
  guidance_scale : ℚ
deriving DecidableEq, Repr

/-- One observed pipeline invocation, for the traces the handlers return. -/
inductive PipelineCall where
  | t2i (args : Txt2ImgArgs)
  | i2i (args : Img2ImgArgs)
deriving DecidableEq, Repr

/-- The mutable globals of app.py: the two optional pipeline handles set by
`load_models` (lines 84-85) and the contents of the `uploaded_images`
directory, as an association list from file_id to file bytes (a later write
to the same path shadows the earlier one, as on a filesystem). -/
structure ServerState where
  txt2img_pipeline : Option (Txt2ImgArgs → Except String (List Image))
  img2img_pipeline : Option (Img2ImgArgs → Except String (List Image))
  uploaded : List (String × List Nat)

/-- The external nondeterminism consumed by `generate_images`: `clock k` is
the value of `int(time.time())` at its k-th call inside the request,
`fresh_id` the value of `str(uuid4())`, and `b64encode` the PNG+base64
encoding of an image performed by `encode_image_to_base64`. -/
structure Env where
  clock : Nat → Nat
  fresh_id : String
  b64encode : Image → String

/-- Pydantic model Txt2ImgInput (app.py lines 123-127) with its field
defaults. -/
structure Txt2ImgInput where
  prompt : String
  negative_prompt : String := ""
  num_inference_steps : Int := 4
  guidance_scale : ℚ := 15/2
deriving DecidableEq, Repr

/-- Pydantic model Img2ImgInput (app.py lines 130-136) with its field
defaults. -/
structure Img2ImgInput where
  prompt : String
  negative_prompt : String := ""
  file_id : String
  num_inference_steps : Int := 4
  strength : ℚ := 1/2
  guidance_scale : ℚ := 15/2
deriving DecidableEq, Repr

/-- Pydantic model ImageGenerationRequest (app.py lines 139-143) with its
field defaults. -/
structure ImageGenerationRequest where
  prompt : String
  n : Int := 1
  size : String := "512x512"
  response_format : String := "url"
deriving DecidableEq, Repr

/-- One entry of the `data` array returned by `/v1/images/generations`
(app.py lines 297-316); exactly one of `url` and `b64_json` is populated. -/
structure GenerationEntry where
  id : String
  object : String
  created : Nat
  url : Option String
  b64_json : Option String
deriving DecidableEq, Repr

/-- The HTTP-level outcome of an inference endpoint: a streamed PNG
(StreamingResponse), a JSON body (the generations endpoint), or an
HTTPException. -/
inductive EndpointResult where
  | stream (image : Image)
  | json (data : List GenerationEntry)
  | error (e : HTTPException)
deriving DecidableEq, Repr

/-- save_image_and_get_url (app.py lines 174-179): saves the image under
`output_images/{file_id}.png` and returns the URL path. The first component
is the (path-stem, image) write it performs. -/
def save_image_and_get_url (image : Image) (file_id : String) :
    (String × Image) × String :=
  ((file_id, image), "/output_images/" ++ file_id ++ ".png")

/-- The file lookup `/img2img` performs at app.py lines 247-251:
`os.path.exists` on `uploaded_images/{file_id}.png` followed by reading the
file. Returns the stored bytes, or `none` when the file does not exist. -/
def lookupUpload (uploaded : List (String × List Nat)) (file_id : String) :
    Option (List Nat) :=
  (uploaded.find? fun entry => entry.1 == file_id).map Prod.snd

/-- upload_image (app.py lines 224-237): writes the uploaded bytes under a
fresh uuid and returns that uuid as the file_id. The fresh uuid produced by
`str(uuid4())` is a parameter. Returns the updated directory contents and
the returned file_id. -/
def upload_image (uploaded : List (String × List Nat)) (fresh_uuid : String)
    (file_content : List Nat) : List (String × List Nat) × String :=
  ((fresh_uuid, file_content) :: uploaded, fresh_uuid)

/-- The txt2img endpoint (app.py lines 194-221). Returns the HTTP outcome and
the list of pipeline invocations performed. The disabled check is
`not ENABLE_TXT2IMG or txt2img_pipeline is None`; inside the try-block a
pipeline exception becomes a 500 whose detail is `str(e)`, and
`result.images[0]` on an empty list raises the IndexError that the same
handler turns into a 500. -/
def txt2img (cfg : Config) (st : ServerState) (input_data : Txt2ImgInput) :
    EndpointResult × List PipelineCall :=
  match cfg.ENABLE_TXT2IMG, st.txt2img_pipeline with
  | false, _ | _, none =>
      (.error ⟨400, "txt2img is disabled on this server."⟩, [])
  | true, some pipe =>
      let args : Txt2ImgArgs :=
        { prompt := input_data.prompt
          negative_prompt := some input_data.negative_prompt
          num_inference_steps := input_data.num_inference_steps
          guidance_scale := input_data.guidance_scale
          num_images_per_prompt := none }
      (match pipe args with
        | .error e => .error ⟨500, e⟩
        | .ok [] => .error ⟨500, "list index out of range"⟩
        | .ok (image :: _) => .stream image,
       [.t2i args])

/-- The img2img endpoint (app.py lines 240-274): disabled check, then the
file-existence check (404 before any pipeline work), then the guarded
pipeline call whose exception becomes a 500 with `str(e)`. -/
def img2img (cfg : Config) (st : ServerState) (input_data : Img2ImgInput) :
    EndpointResult × List PipelineCall :=
  match cfg.ENABLE_IMG2IMG, st.img2img_pipeline with
  | false, _ | _, none =>
      (.error ⟨400, "img2img is disabled on this server."⟩, [])
  | true, some pipe =>
      match lookupUpload st.uploaded input_data.file_id with
      | none => (.error ⟨404, "Uploaded file not found on disk."⟩, [])
      | some pil_image =>
          let args : Img2ImgArgs :=
            { prompt := input_data.prompt
              negative_prompt := input_data.negative_prompt
              image := pil_image
              num_inference_steps := input_data.num_inference_steps
              strength := input_data.strength
              guidance_scale := input_data.guidance_scale }
          (match pipe args with
            | .error e => .error ⟨500, e⟩
            | .ok [] => .error ⟨500, "list index out of range"⟩
            | .ok (image :: _) => .stream image,
           [.i2i args])

/-- The /v1/images/generations endpoint (app.py lines 277-321). Returns the
HTTP outcome, the pipeline trace, and the list of writes made to
`output_images/`. The pipeline is called once, with hard-coded
num_inference_steps = 30 and guidance_scale = 7.5 and with
num_images_per_prompt = n (lines 287-292); any exception becomes a 500 whose
detail is the fixed string "Internal server error." (line 321). One id is
drawn for the whole request (line 295); each entry calls `int(time.time())`
(modelled as `env.clock k` for the k-th entry) and, in url mode,
`save_image_and_get_url image id` — with the shared id, so every save
targets the same path. -/
def generate_images (cfg : Config) (st : ServerState) (env : Env)
    (request : ImageGenerationRequest) :
    EndpointResult × List PipelineCall × List (String × Image) :=
  match cfg.ENABLE_TXT2IMG, st.txt2img_pipeline with
  | false, _ | _, none =>
      (.error ⟨503, "Text-to-Image generation is unavailable."⟩, [], [])
  | true, some pipe =>
      let args : Txt2ImgArgs :=
        { prompt := request.prompt
          negative_prompt := none
          num_inference_steps := 30
          guidance_scale := 15/2
          num_images_per_prompt := some request.n }
      (match pipe args with
        | .error _ => .error ⟨500, "Internal server error."⟩
        | .ok images =>
            let id := env.fresh_id
            if request.response_format = "url" then
              .json (images.enum.map fun p =>
                { id := id
                  object := "image"
                  created := env.clock p.1
                  url := some (save_image_and_get_url p.2 id).2
                  b64_json := none })
            else
              .json (images.enum.map fun p =>
                { id := id
                  object := "image"
                  created := env.clock p.1
                  url := none
                  b64_json := some (env.b64encode p.2) }),
       [.t2i args],
       match pipe args with
        | .error _ => []
        | .ok images =>
            if request.response_format = "url" then
              images.map fun image =>
                (save_image_and_get_url image env.fresh_id).1
            else [])

/-- The body returned by GET /health (app.py lines 324-332). -/
structure HealthResponse where
  status : String
  device : String
  model : String
  enable_txt2img : Bool
  enable_img2img : Bool
deriving DecidableEq, Repr

/-- The health endpoint (app.py lines 324-332), with its (empty) pipeline
trace. -/
def health_check (cfg : Config) : HealthResponse × List PipelineCall :=
  ({ status := "ok"
     device := cfg.device
     model := cfg.MODEL_NAME
     enable_txt2img := cfg.ENABLE_TXT2IMG
     enable_img2img := cfg.ENABLE_IMG2IMG }, [])

/-!
## Concurrency model

All handlers are `async def` coroutines of one single-threaded asyncio event
loop: exactly one coroutine runs at a time, and control changes hands only at
an await point that actually suspends. Each inference request wraps its
pipeline call in an `async with lock:` region; which lock depends on the
endpoint: `/txt2img` (line 202) and `/img2img` (line 254) use the
module-level `gpu_lock` created once at line 81, while `/v1/images/generations`
(line 285) writes `async with asyncio.Lock():`, constructing a fresh lock
object private to that one request, so its acquire can never find the lock
held. Decisive for scheduling: every protected region (lines 202-211,
254-265, 285-293) contains no await between a successful lock acquire and
the end of the pipeline call — acquiring an uncontended asyncio.Lock does
not suspend, and `autocast`, `torch.no_grad` and the pipeline call itself
are synchronous. A request therefore enters its region only when the event
loop is idle, and once inside it blocks the loop until the pipeline call
returns: no other coroutine can take a step in between. The model below
renders this: a task's entry transition requires the loop to be free
(`running = false`) and marks it busy; while `running = true` the only
enabled transition is the completion of the running region.
-/

/-- Which lock a request's protected region acquires: the module-level
gpu_lock shared by /txt2img and /img2img, or the lock freshly constructed
inside /v1/images/generations. -/
inductive LockUse where
  | sharedGpuLock
  | freshLock
deriving DecidableEq, Repr

/-- Where a request stands relative to its protected region: waiting to
acquire its lock, executing the pipeline invocation inside the region, or
finished. -/
inductive Phase where
  | beforeAcquire
  | inPipeline
  | afterRelease
deriving DecidableEq, Repr

/-- One in-flight request: the lock its endpoint uses and its current
phase. -/
structure TaskState where
  lock : LockUse
  phase : Phase
deriving DecidableEq, Repr

/-- The scheduler state: the in-flight requests, whether the event-loop
thread is currently inside a (non-yielding) protected region, and whether
gpu_lock is currently held. -/
structure Sched where
  tasks : List TaskState
  running : Bool
  gpuHeld : Bool
deriving DecidableEq, Repr

/-- One event-loop transition. Entering a protected region requires the loop
to be idle (`running = false`): a gpu_lock user additionally needs gpu_lock
free and takes it, a fresh-lock user's private lock is always free. Because
the region contains no await, entering marks the loop busy, and while it is
busy the only enabled transition is the running region completing — which
releases the corresponding lock and frees the loop. A gpu_lock user that
finds gpu_lock held simply stays at `beforeAcquire` until it is released. -/
inductive Step : Sched → Sched → Prop where
  | startShared (pre post : List TaskState) :
      Step ⟨pre ++ ⟨.sharedGpuLock, .beforeAcquire⟩ :: post, false, false⟩
           ⟨pre ++ ⟨.sharedGpuLock, .inPipeline⟩ :: post, true, true⟩
  | startFresh (pre post : List TaskState) (g : Bool) :
      Step ⟨pre ++ ⟨.freshLock, .beforeAcquire⟩ :: post, false, g⟩
           ⟨pre ++ ⟨.freshLock, .inPipeline⟩ :: post, true, g⟩
  | finishShared (pre post : List TaskState) (g : Bool) :
      Step ⟨pre ++ ⟨.sharedGpuLock, .inPipeline⟩ :: post, true, g⟩
           ⟨pre ++ ⟨.sharedGpuLock, .afterRelease⟩ :: post, false, false⟩
  | finishFresh (pre post : List TaskState) (g : Bool) :
      Step ⟨pre ++ ⟨.freshLock, .inPipeline⟩ :: post, true, g⟩
           ⟨pre ++ ⟨.freshLock, .afterRelease⟩ :: post, false, g⟩

/-- Whether a task is currently executing a pipeline invocation. -/
def isExec (t : TaskState) : Bool :=
  t.phase == Phase.inPipeline

/-- The number of pipeline invocations currently executing. -/
def executing (s : Sched) : Nat :=
  s.tasks.countP isExec

/-- The inductive invariant: the number of executing pipeline invocations is
1 while the event-loop thread is inside a protected region and 0 while it is
idle. -/
def ExecInv (s : Sched) : Prop :=
  executing s = if s.running then 1 else 0

theorem execInv_step {s s2 : Sched} (hs : Step s s2) (hinv : ExecInv s) :
    ExecInv s2 := by
  cases hs with
  | startShared pre post =>
      unfold ExecInv executing at hinv ⊢
      rw [List.countP_append, List.countP_cons] at hinv ⊢
      rw [show isExec ⟨.sharedGpuLock, .beforeAcquire⟩ = false from rfl]
        at hinv
      rw [show isExec ⟨.sharedGpuLock, .inPipeline⟩ = true from rfl]
      simp only [Bool.false_eq_true, reduceIte] at hinv ⊢
      omega
  | startFresh pre post g =>
      unfold ExecInv executing at hinv ⊢
      rw [List.countP_append, List.countP_cons] at hinv ⊢
      rw [show isExec ⟨.freshLock, .beforeAcquire⟩ = false from rfl] at hinv
      rw [show isExec ⟨.freshLock, .inPipeline⟩ = true from rfl]
      simp only [Bool.false_eq_true, reduceIte] at hinv ⊢
      omega
  | finishShared pre post g =>
      unfold ExecInv executing at hinv ⊢
      rw [List.countP_append, List.countP_cons] at hinv ⊢
      rw [show isExec ⟨.sharedGpuLock, .inPipeline⟩ = true from rfl] at hinv
      rw [show isExec ⟨.sharedGpuLock, .afterRelease⟩ = false from rfl]
      simp only [Bool.false_eq_true, reduceIte] at hinv ⊢
      omega
  | finishFresh pre post g =>
      unfold ExecInv executing at hinv ⊢
      rw [List.countP_append, List.countP_cons] at hinv ⊢
      rw [show isExec ⟨.freshLock, .inPipeline⟩ = true from rfl] at hinv
      rw [show isExec ⟨.freshLock, .afterRelease⟩ = false from rfl]
      simp only [Bool.false_eq_true, reduceIte] at hinv ⊢
      omega

/-!
## Concrete fixtures

Closed configurations, pipelines and states used by witnesses and
counterexamples.
-/

/-- A configuration with both capabilities enabled. -/
def cfgAllOn : Config := ⟨"stabilityai/sdxl-turbo", true, true, "cpu"⟩

/-- A configuration with ENABLE_TXT2IMG = false. -/
def cfgTxtOff : Config := ⟨"stabilityai/sdxl-turbo", false, true, "cpu"⟩

/-- A configuration with ENABLE_IMG2IMG = false. -/
def cfgImgOff : Config := ⟨"stabilityai/sdxl-turbo", true, false, "cpu"⟩

/-- A frozen environment: the clock always reads 111, uuid4 returns "rid". -/
def envTest : Env := ⟨fun _ => 111, "rid", fun image => "b64-" ++ toString image⟩

/-- A text-to-image pipeline that returns three pairwise distinct images. -/
def pipeThree : Txt2ImgArgs → Except String (List Image) := fun _ => .ok [10, 20, 30]

/-- A text-to-image pipeline that raises with message "boom". -/
def pipeBoomT : Txt2ImgArgs → Except String (List Image) := fun _ => .error "boom"

/-- An image-to-image pipeline that raises with message "boom". -/
def pipeBoomI : Img2ImgArgs → Except String (List Image) := fun _ => .error "boom"

/-- An image-to-image pipeline that returns one image. -/
def pipeOkI : Img2ImgArgs → Except String (List Image) := fun _ => .ok [7]

/-- Server state whose text-to-image pipeline yields three images and with
one stored upload. -/
def stThree : ServerState := ⟨some pipeThree, some pipeOkI, [("fid0", [1, 2, 3])]⟩

/-- Server state whose pipelines both raise "boom", with one stored upload. -/
def stBoom : ServerState := ⟨some pipeBoomT, some pipeBoomI, [("fid0", [1, 2, 3])]⟩

/-- Server state before load_models has run: no pipelines, no uploads. -/
def stEmpty : ServerState := ⟨none, none, []⟩

/-!
## Shared lemmas
-/

/-- generate_images never reads `request.size`: two requests that agree on
prompt, n and response_format produce identical outcomes, pipeline traces and
output-file writes. -/
theorem generate_images_ignores_size (cfg : Config) (st : ServerState)
    (env : Env) (r1 r2 : ImageGenerationRequest)
    (hp : r1.prompt = r2.prompt) (hn : r1.n = r2.n)
    (hf : r1.response_format = r2.response_format) :
    generate_images cfg st env r1 = generate_images cfg st env r2 := by
  obtain ⟨p1, n1, s1, f1⟩ := r1
  obtain ⟨p2, n2, s2, f2⟩ := r2
  cases hp; cases hn; cases hf
  obtain ⟨mn, et, ei, dv⟩ := cfg
  obtain ⟨t2i, i2i, up⟩ := st
  cases et <;> cases t2i <;> rfl

/-!
## Claims
-/

/-- Claim C1: at most one pipeline invocation executes against the shared
accelerator at any instant, for any number and mix of in-flight /txt2img,
/img2img and /v1/images/generations requests. Starting from any state in
which no invocation is executing and the event-loop thread is idle, every
reachable state has at most one executing invocation. Notably this holds
although the asyncio.Lock() in generate_images is constructed per request
and so excludes nothing: serialization comes from the protected regions
containing no await, which makes each pipeline call occupy the
single-threaded event loop from entry to exit. -/
theorem pipeline_executions_serialized {s s2 : Sched}
    (h : Relation.ReflTransGen Step s s2)
    (h0 : executing s = 0) (hr : s.running = false) :
    executing s2 ≤ 1 := by
  have hinv : ExecInv s2 := by
    induction h with
    | refl => unfold ExecInv; rw [h0, hr]; simp
    | tail _ hstep ih => exact execInv_step hstep ih
  unfold ExecInv executing at hinv
  unfold executing
  rcases s2 with ⟨ts, r, g⟩
  dsimp only at hinv ⊢
  cases r <;> simp only [Bool.false_eq_true, reduceIte] at hinv <;> omega

/-- Witness for C1: three in-flight requests — one generations (fresh-lock)
task that has entered its pipeline call, one txt2img (gpu_lock) task and one
further generations task still waiting — reached from the all-waiting idle
state by one step; the theorem bounds its executing count by 1. -/
theorem pipeline_executions_serialized_witness :
    executing ⟨[⟨.freshLock, .inPipeline⟩, ⟨.sharedGpuLock, .beforeAcquire⟩,
                ⟨.freshLock, .beforeAcquire⟩], true, false⟩ ≤ 1 :=
  pipeline_executions_serialized
    (Relation.ReflTransGen.tail Relation.ReflTransGen.refl
      (Step.startFresh []
        [⟨.sharedGpuLock, .beforeAcquire⟩, ⟨.freshLock, .beforeAcquire⟩]
        false))
    (by decide) rfl

/-- The response entry that /v1/images/generations produces for every one of
the three generated images in the run of `generations_url_entries_identical`:
the same shared id, the same created time and the same URL. -/
def entryR : GenerationEntry :=
  ⟨"rid", "image", 111, some "/output_images/rid.png", none⟩

/-- Claim C2 (refutation). With n = 3 and response_format "url" against a
pipeline returning three pairwise distinct images, the endpoint returns three
entries that are all identical — every url is built from the single shared
request id — so the body does not contain 3 distinct entries; moreover all
three images are saved to the same path rid.png, each save overwriting the
previous. -/
theorem generations_url_entries_identical :
    (generate_images cfgAllOn stThree envTest { prompt := "p", n := 3 }).1
        = .json [entryR, entryR, entryR]
    ∧ ¬ ([entryR, entryR, entryR] : List GenerationEntry).Nodup
    ∧ (generate_images cfgAllOn stThree envTest { prompt := "p", n := 3 }).2.2
        = [("rid", 10), ("rid", 20), ("rid", 30)] :=
  ⟨rfl, by decide, rfl⟩

/-- Claim C3: when a capability is disabled, the corresponding endpoint
returns the disabled-capability error — 400 for /txt2img and /img2img, 503
for /v1/images/generations — with an empty pipeline trace (and no output
writes), for every request. -/
theorem disabled_capability_rejected (cfg : Config) (st : ServerState)
    (env : Env) :
    (cfg.ENABLE_TXT2IMG = false →
      ∀ input_data : Txt2ImgInput,
        txt2img cfg st input_data
          = (.error ⟨400, "txt2img is disabled on this server."⟩, []))
  ∧ (cfg.ENABLE_IMG2IMG = false →
      ∀ input_data : Img2ImgInput,
        img2img cfg st input_data
          = (.error ⟨400, "img2img is disabled on this server."⟩, []))
  ∧ (cfg.ENABLE_TXT2IMG = false →
      ∀ request : ImageGenerationRequest,
        generate_images cfg st env request
          = (.error ⟨503, "Text-to-Image generation is unavailable."⟩, [], [])) := by
  obtain ⟨mn, et, ei, dv⟩ := cfg
  obtain ⟨t2i, i2i, up⟩ := st
  refine ⟨fun h inp => ?_, fun h inp => ?_, fun h req => ?_⟩ <;>
    (subst h; cases t2i <;> cases i2i <;> rfl)

/-- Witness for C3: concrete disabled configurations produce the three
errors. -/
theorem disabled_capability_rejected_witness :
    txt2img cfgTxtOff stEmpty { prompt := "p" }
      = (.error ⟨400, "txt2img is disabled on this server."⟩, [])
  ∧ img2img cfgImgOff stEmpty { prompt := "p", file_id := "f" }
      = (.error ⟨400, "img2img is disabled on this server."⟩, [])
  ∧ generate_images cfgTxtOff stEmpty envTest { prompt := "p" }
      = (.error ⟨503, "Text-to-Image generation is unavailable."⟩, [], []) :=
  ⟨(disabled_capability_rejected cfgTxtOff stEmpty envTest).1 rfl _,
   (disabled_capability_rejected cfgImgOff stEmpty envTest).2.1 rfl _,
   (disabled_capability_rejected cfgTxtOff stEmpty envTest).2.2 rfl _⟩

/-- Claim C4: on an operational /img2img endpoint (capability enabled and
pipeline loaded), a request whose file_id has no stored upload gets HTTP 404
with the not-found detail and an empty pipeline trace. -/
theorem img2img_unknown_file_404 (cfg : Config) (st : ServerState)
    (input_data : Img2ImgInput)
    (pipe : Img2ImgArgs → Except String (List Image))
    (hen : cfg.ENABLE_IMG2IMG = true)
    (hp : st.img2img_pipeline = some pipe)
    (hfile : lookupUpload st.uploaded input_data.file_id = none) :
    img2img cfg st input_data
      = (.error ⟨404, "Uploaded file not found on disk."⟩, []) := by
  obtain ⟨mn, et, ei, dv⟩ := cfg
  obtain ⟨t2i, i2i, up⟩ := st
  subst hen
  subst hp
  simp only [img2img]
  rw [hfile]

/-- Witness for C4: a concrete unknown file_id yields the 404 with no
invocation. -/
theorem img2img_unknown_file_404_witness :
    img2img cfgAllOn stBoom { prompt := "p", file_id := "missing" }
      = (.error ⟨404, "Uploaded file not found on disk."⟩, []) :=
  img2img_unknown_file_404 cfgAllOn stBoom _ pipeBoomI rfl rfl (by decide)

/-- Claim C5: the store/retrieve round-trip. Uploading byte content returns a
file_id under which exactly those bytes are found, and an /img2img request
carrying that file_id reaches the pipeline with exactly the uploaded bytes as
its source image. -/
theorem upload_roundtrip (cfg : Config) (uploaded : List (String × List Nat))
    (fresh_uuid prompt : String) (file_content : List Nat)
    (pipe : Img2ImgArgs → Except String (List Image))
    (hen : cfg.ENABLE_IMG2IMG = true) :
    lookupUpload (upload_image uploaded fresh_uuid file_content).1
        (upload_image uploaded fresh_uuid file_content).2 = some file_content
  ∧ (img2img cfg
        ⟨none, some pipe, (upload_image uploaded fresh_uuid file_content).1⟩
        { prompt := prompt
          file_id := (upload_image uploaded fresh_uuid file_content).2 }).2
      = [.i2i ⟨prompt, "", file_content, 4, 1/2, 15/2⟩] := by
  have hlook :
      lookupUpload ((fresh_uuid, file_content) :: uploaded) fresh_uuid
        = some file_content := by
    unfold lookupUpload
    rw [List.find?_cons_of_pos _ (by simp)]
    rfl
  obtain ⟨mn, et, ei, dv⟩ := cfg
  subst hen
  refine ⟨hlook, ?_⟩
  simp only [img2img, upload_image]
  rw [hlook]

/-- Witness for C5: a concrete upload of [9, 8] round-trips. -/
theorem upload_roundtrip_witness :
    lookupUpload (upload_image [] "u1" [9, 8]).1
        (upload_image [] "u1" [9, 8]).2 = some [9, 8]
  ∧ (img2img cfgAllOn ⟨none, some pipeOkI, (upload_image [] "u1" [9, 8]).1⟩
        { prompt := "p", file_id := (upload_image [] "u1" [9, 8]).2 }).2
      = [.i2i ⟨"p", "", [9, 8], 4, 1/2, 15/2⟩] :=
  upload_roundtrip cfgAllOn [] "u1" "p" [9, 8] pipeOkI rfl

/-- Claim C6: two-run noninterference in `size`. Overwriting the size field of
any /v1/images/generations request with any other value leaves the endpoint's
entire behaviour — outcome, pipeline invocations and their arguments, output
writes — unchanged. -/
theorem size_noninterference (cfg : Config) (st : ServerState) (env : Env)
    (request : ImageGenerationRequest) (other_size : String) :
    generate_images cfg st env { request with size := other_size }
      = generate_images cfg st env request :=
  generate_images_ignores_size cfg st env _ request rfl rfl rfl

/-- Claim C7: GET /health returns exactly the configured capability flags, the
selected device and the model identifier, with an empty pipeline trace. -/
theorem health_reflects_config (cfg : Config) :
    health_check cfg
      = ({ status := "ok"
           device := cfg.device
           model := cfg.MODEL_NAME
           enable_txt2img := cfg.ENABLE_TXT2IMG
           enable_img2img := cfg.ENABLE_IMG2IMG }, []) := rfl

/-- Claim C8 (counterexample to the claim as stated). When the pipeline
raises "boom" inside /v1/images/generations, the endpoint does return a 500,
but its detail is the fixed string "Internal server error." rather than the
failure message — refuting the claim that all three endpoints put the failure
message in the detail field. -/
theorem generations_hides_failure_message :
    (generate_images cfgAllOn stBoom envTest { prompt := "p" }).1
        = .error ⟨500, "Internal server error."⟩
    ∧ (generate_images cfgAllOn stBoom envTest { prompt := "p" }).1
        ≠ .error ⟨500, "boom"⟩ :=
  ⟨rfl, by decide⟩

/-- Claim C8 as amended: a pipeline exception yields HTTP 500 on all three
inference endpoints; for /txt2img and /img2img the detail field carries the
exception message, while /v1/images/generations replies with the fixed
detail "Internal server error." instead of the failure message. -/
theorem pipeline_failure_maps_to_500 (cfg : Config) (st : ServerState)
    (env : Env) (msg : String) :
    (∀ (input_data : Txt2ImgInput)
        (pipe : Txt2ImgArgs → Except String (List Image)),
      cfg.ENABLE_TXT2IMG = true → st.txt2img_pipeline = some pipe →
      pipe ⟨input_data.prompt, some input_data.negative_prompt,
            input_data.num_inference_steps, input_data.guidance_scale, none⟩
        = .error msg →
      (txt2img cfg st input_data).1 = .error ⟨500, msg⟩)
  ∧ (∀ (input_data : Img2ImgInput)
        (pipe : Img2ImgArgs → Except String (List Image))
        (stored : List Nat),
      cfg.ENABLE_IMG2IMG = true → st.img2img_pipeline = some pipe →
      lookupUpload st.uploaded input_data.file_id = some stored →
      pipe ⟨input_data.prompt, input_data.negative_prompt, stored,
            input_data.num_inference_steps, input_data.strength,
            input_data.guidance_scale⟩ = .error msg →
      (img2img cfg st input_data).1 = .error ⟨500, msg⟩)
  ∧ (∀ (request : ImageGenerationRequest)
        (pipe : Txt2ImgArgs → Except String (List Image)),
      cfg.ENABLE_TXT2IMG = true → st.txt2img_pipeline = some pipe →
      pipe ⟨request.prompt, none, 30, 15/2, some request.n⟩ = .error msg →
      (generate_images cfg st env request).1
        = .error ⟨500, "Internal server error."⟩) := by
  obtain ⟨mn, et, ei, dv⟩ := cfg
  obtain ⟨t2i, i2i, up⟩ := st
  refine ⟨fun inp pipe hen hp hfail => ?_,
          fun inp pipe stored hen hp hfile hfail => ?_,
          fun req pipe hen hp hfail => ?_⟩
  · subst hen; subst hp
    simp only [txt2img]
    rw [hfail]
  · subst hen; subst hp
    simp only [img2img, hfile, hfail]
  · subst hen; subst hp
    simp only [generate_images]
    rw [hfail]

/-- Witness for the amended C8: with concrete pipelines that raise "boom",
/txt2img and /img2img answer 500 with detail "boom" and
/v1/images/generations answers 500 with the fixed detail. -/
theorem pipeline_failure_maps_to_500_witness :
    (txt2img cfgAllOn stBoom { prompt := "p" }).1 = .error ⟨500, "boom"⟩
  ∧ (img2img cfgAllOn stBoom { prompt := "p", file_id := "fid0" }).1
      = .error ⟨500, "boom"⟩
  ∧ (generate_images cfgAllOn stBoom envTest { prompt := "p" }).1
      = .error ⟨500, "Internal server error."⟩ :=
  ⟨(pipeline_failure_maps_to_500 cfgAllOn stBoom envTest "boom").1
      { prompt := "p" } pipeBoomT rfl rfl rfl,
   (pipeline_failure_maps_to_500 cfgAllOn stBoom envTest "boom").2.1
      { prompt := "p", file_id := "fid0" } pipeBoomI [1, 2, 3] rfl rfl
      (by decide) rfl,
   (pipeline_failure_maps_to_500 cfgAllOn stBoom envTest "boom").2.2
      { prompt := "p" } pipeBoomT rfl rfl rfl⟩

/-- Claim C9: on an operational /v1/images/generations endpoint the pipeline
is invoked exactly once, with the hard-coded num_inference_steps = 30 and
guidance_scale = 7.5, no negative prompt, and num_images_per_prompt equal to
the request's n; and any two requests agreeing on prompt, n and
response_format get identical behaviour, so no other request field influences
the invocation or the response. -/
theorem generations_invocation_args (cfg : Config) (st : ServerState)
    (env : Env) (request : ImageGenerationRequest)
    (pipe : Txt2ImgArgs → Except String (List Image))
    (hen : cfg.ENABLE_TXT2IMG = true)
    (hp : st.txt2img_pipeline = some pipe) :
    (generate_images cfg st env request).2.1
      = [.t2i ⟨request.prompt, none, 30, 15/2, some request.n⟩]
  ∧ ∀ request2 : ImageGenerationRequest,
      request2.prompt = request.prompt → request2.n = request.n →
      request2.response_format = request.response_format →
      generate_images cfg st env request2
        = generate_images cfg st env request := by
  constructor
  · obtain ⟨mn, et, ei, dv⟩ := cfg
    obtain ⟨t2i, i2i, up⟩ := st
    subst hen; subst hp
    rfl
  · exact fun request2 h1 h2 h3 =>
      generate_images_ignores_size cfg st env request2 request h1 h2 h3

/-- Witness for C9: a concrete generations request with n = 3 produces a
single pipeline call with the hard-coded arguments. -/
theorem generations_invocation_args_witness :
    (generate_images cfgAllOn stThree envTest { prompt := "p", n := 3 }).2.1
      = [.t2i ⟨"p", none, 30, 15/2, some 3⟩] :=
  (generations_invocation_args cfgAllOn stThree envTest
    { prompt := "p", n := 3 } pipeThree rfl rfl).1

/-- Claim C10: the pydantic defaults of the /txt2img and /img2img request
models are negative_prompt = "", num_inference_steps = 4, guidance_scale =
7.5 and (img2img) strength = 0.5, and a request omitting the optional fields
reaches the pipeline with exactly those values. -/
theorem input_defaults_passed_to_pipeline (cfg : Config) (st : ServerState)
    (prompt file_id : String) (stored : List Nat)
    (pipeT : Txt2ImgArgs → Except String (List Image))
    (pipeI : Img2ImgArgs → Except String (List Image))
    (henT : cfg.ENABLE_TXT2IMG = true)
    (hpT : st.txt2img_pipeline = some pipeT)
    (henI : cfg.ENABLE_IMG2IMG = true)
    (hpI : st.img2img_pipeline = some pipeI)
    (hfile : lookupUpload st.uploaded file_id = some stored) :
    ({ prompt := prompt } : Txt2ImgInput) = ⟨prompt, "", 4, 15/2⟩
  ∧ ({ prompt := prompt, file_id := file_id } : Img2ImgInput)
      = ⟨prompt, "", file_id, 4, 1/2, 15/2⟩
  ∧ (txt2img cfg st { prompt := prompt }).2
      = [.t2i ⟨prompt, some "", 4, 15/2, none⟩]
  ∧ (img2img cfg st { prompt := prompt, file_id := file_id }).2
      = [.i2i ⟨prompt, "", stored, 4, 1/2, 15/2⟩] := by
  obtain ⟨mn, et, ei, dv⟩ := cfg
  obtain ⟨t2i, i2i, up⟩ := st
  subst henT; subst hpT; subst henI; subst hpI
  refine ⟨rfl, rfl, rfl, ?_⟩
  simp only [img2img]
  rw [hfile]

/-- Witness for C10: concrete default-valued requests produce exactly the
default pipeline arguments. -/
theorem input_defaults_passed_to_pipeline_witness :
    (txt2img cfgAllOn stBoom { prompt := "p" }).2
      = [.t2i ⟨"p", some "", 4, 15/2, none⟩]
  ∧ (img2img cfgAllOn stBoom { prompt := "p", file_id := "fid0" }).2
      = [.i2i ⟨"p", "", [1, 2, 3], 4, 1/2, 15/2⟩] :=
  ⟨(input_defaults_passed_to_pipeline cfgAllOn stBoom "p" "fid0" [1, 2, 3]
      pipeBoomT pipeBoomI rfl rfl rfl rfl (by decide)).2.2.1,
   (input_defaults_passed_to_pipeline cfgAllOn stBoom "p" "fid0" [1, 2, 3]
      pipeBoomT pipeBoomI rfl rfl rfl rfl (by decide)).2.2.2⟩

end SDServer
